import Mathlib

/-!
Verification of `discord_components/interaction.py` (discord.py-components).

The file shallowly embeds the `Interaction` class: its constructor
`Interaction.__init__` and its single operation `Interaction.respond`.
JSON payloads are modelled by `JVal`, Python subscripting (with its
`KeyError` / `TypeError` behaviour) by `subscript`, dict construction
(`{**a, **b, k: v}` and `d[k] = v`) by `mergeDict` / `setKey`, and the
effects of `respond` by a `RespondResult` record holding the possibly
mutated instance, the list of issued HTTP requests and the optionally
raised Python exception.

Objects of the wrapped `discord.py` library (bot, client, users,
components, channels, guilds) are opaque to this code: it only stores
and forwards them.  They are modelled by opaque handles (`PyObj`);
`ComponentMessage` keeps the two attributes (`channel`, `guild`) the
constructor reads.  `discord.Embed` and `discord.AllowedMentions` are
opaque except for the operations the code calls on them (`to_dict`,
and — for `AllowedMentions` — the externally-owned `merge`, taken as a
parameter of the environment `Env` together with the connection
state's `allowed_mentions` attribute read from `bot._get_state()`).
-/

/-- A JSON value, as carried in the inbound `raw_data` payload and in the
outbound callback payload. -/
inductive JVal where
  | null
  | bool (b : Bool)
  | num (n : Int)
  | str (s : String)
  | arr (xs : List JVal)
  | obj (kvs : List (String × JVal))

/-- Python exceptions raised by this code: `KeyError` and `TypeError` from
subscripting, and `discord.InvalidArgument` raised by `respond` itself. -/
inductive PyError where
  | keyError (k : String)
  | typeError
  | invalidArgument (msg : String)
deriving DecidableEq

/-- First-match lookup in an association list modelling a Python dict
(dicts built by this code never carry duplicate keys). -/
def JVal.lookup : List (String × JVal) → String → Option JVal
  | [], _ => none
  | (k, v) :: rest, key => if k = key then some v else JVal.lookup rest key

/-- Whether a dict contains a key. -/
def hasKey (d : List (String × JVal)) (k : String) : Bool :=
  (JVal.lookup d k).isSome

/-- `d[k] = v`: replace the binding of `k` if present, else append it. -/
def setKey : List (String × JVal) → String → JVal → List (String × JVal)
  | [], k, v => [(k, v)]
  | (k0, v0) :: rest, k, v =>
      if k0 = k then (k, v) :: rest else (k0, v0) :: setKey rest k v

/-- `{**a, **b}`: start from `a` and write every binding of `b` over it. -/
def mergeDict (a b : List (String × JVal)) : List (String × JVal) :=
  b.foldl (fun d kv => setKey d kv.1 kv.2) a

/-- Python `value[key]` on a JSON value: a dict yields the binding or
raises `KeyError`; every non-dict value raises `TypeError` when
subscripted with a string key. -/
def subscript : JVal → String → Except PyError JVal
  | JVal.obj kvs, k =>
      match JVal.lookup kvs k with
      | some v => Except.ok v
      | none => Except.error (PyError.keyError k)
  | _, _ => Except.error PyError.typeError

/-- `value[k1][k2]`, as in `raw_data["d"]["id"]`. -/
def dig (v : JVal) (k1 k2 : String) : Except PyError JVal := do
  let d ← subscript v k1
  subscript d k2

/-- Python `str(x)`, as used by the f-string building the callback route.
Scalar values render as Python renders them; containers never occur as
interaction ids or tokens, so their rendering is summarised. -/
def JVal.pyStr : JVal → String
  | JVal.null => "None"
  | JVal.bool true => "True"
  | JVal.bool false => "False"
  | JVal.num n => toString n
  | JVal.str s => s
  | JVal.arr _ => "[...]"
  | JVal.obj _ => "\x7b...\x7d"

/-- An opaque handle to an object owned by the wrapped library. -/
structure PyObj where
  oid : Nat
deriving DecidableEq

/-- The two attributes of a `ComponentMessage` the constructor reads. -/
structure ComponentMessage where
  channel : PyObj
  guild : PyObj
deriving DecidableEq

/-- `discord.Embed`, opaque but for `to_dict`. -/
structure Embed where
  dict : JVal

/-- `embed.to_dict()`. -/
def Embed.to_dict (e : Embed) : JVal := e.dict

/-- `discord.AllowedMentions`, opaque but for `to_dict` (`merge` lives in
`Env`, being library code). -/
structure AllowedMentions where
  dict : JVal

/-- `allowed_mentions.to_dict()`. -/
def AllowedMentions.to_dict (a : AllowedMentions) : JVal := a.dict

/-- `InteractionEventType` from the source. -/
def InteractionEventType : List (String × Int) :=
  [("button_click", 2), ("select_option", 3)]

namespace InteractionType

/-- `InteractionType.Pong`. -/
def Pong : Int := 1

/-- `InteractionType.ChannelMessageWithSource`, the default `type` of
`respond`. -/
def ChannelMessageWithSource : Int := 4

/-- `InteractionType.DeferredChannelMessageWithSource`. -/
def DeferredChannelMessageWithSource : Int := 5

/-- `InteractionType.DeferredUpdateMessage`. -/
def DeferredUpdateMessage : Int := 6

/-- `InteractionType.UpdateMessage`. -/
def UpdateMessage : Int := 7

end InteractionType

namespace FlagsType

/-- `1 << 0`. -/
def Crossposted : Int := 1

/-- `1 << 1`. -/
def Is_crosspost : Int := 2

/-- `1 << 2`. -/
def Suppress_embeds : Int := 4

/-- `1 << 3`. -/
def Source_message_deleted : Int := 8

/-- `1 << 4`. -/
def Urgent : Int := 16

/-- `1 << 6`. -/
def Ephemeral : Int := 64

/-- `1 << 7`. -/
def Loading : Int := 128

end FlagsType

/-- The `Interaction` instance: the fields `__init__` assigns. -/
structure Interaction where
  bot : PyObj
  client : PyObj
  user : Option PyObj
  author : Option PyObj
  component : PyObj
  raw_data : JVal
  is_ephemeral : Bool
  responded : Bool
  message : Option ComponentMessage
  channel : Option PyObj
  guild : Option PyObj
  interaction_id : JVal
  interaction_token : JVal

/-- `message.channel if message else None`. -/
def channelOf : Option ComponentMessage → Option PyObj
  | some m => some m.channel
  | none => none

/-- `message.guild if message else None`. -/
def guildOf : Option ComponentMessage → Option PyObj
  | some m => some m.guild
  | none => none

/-- `Interaction.__init__(bot=…, client=…, user=None, component=…,
raw_data=…, message=None, is_ephemeral=False)`.  Field assignments are
pure; the two subscript chains `raw_data["d"]["id"]` and
`raw_data["d"]["token"]` may raise, in which case no instance is
produced. -/
def Interaction.init (bot client : PyObj) (user : Option PyObj)
    (component : PyObj) (raw_data : JVal) (message : Option ComponentMessage)
    (is_ephemeral : Bool) : Except PyError Interaction := do
  let iid ← dig raw_data "d" "id"
  let tok ← dig raw_data "d" "token"
  Except.ok
    { bot := bot
      client := client
      user := user
      author := user
      component := component
      raw_data := raw_data
      is_ephemeral := is_ephemeral
      responded := false
      message := message
      channel := channelOf message
      guild := guildOf message
      interaction_id := iid
      interaction_token := tok }

/-- The environment external to the instance that `respond` consults:
`bot._get_state().allowed_mentions` and the library-owned
`AllowedMentions.merge`. -/
structure Env where
  state_allowed_mentions : Option AllowedMentions
  merge : AllowedMentions → AllowedMentions → AllowedMentions

/-- The names of `respond`'s explicit keyword parameters.  Python's
calling convention binds a keyword with one of these names to the
parameter itself; a call such as `respond(content=None, **{"content": x})`
raises `TypeError` before the body runs, so the `**options` dict can
never carry any of these names. -/
def respondParamNames : List String :=
  ["type", "content", "embed", "embeds", "allowed_mentions", "tts",
   "ephemeral", "components"]

/-- The extra `**options` keyword arguments of `respond`.  The `ok` field
records the guarantee of Python's keyword binding: none of the collected
keywords names an explicit parameter of `respond`. -/
structure ExtraOptions where
  kvs : List (String × JVal)
  ok : kvs.all (fun kv => !respondParamNames.contains kv.1) = true

/-- Modelled from the spec: `self.client._get_components_json(components)`
is package code outside `src/` (the client module).  Per the spec the
payload is built from `respond`'s optional parameters, the component
rows being the payload of the `components` parameter; the serialisation
contributes only the `"components"` key (an empty dict when no
components are supplied), never any other payload key. -/
def getComponentsJson : Option JVal → List (String × JVal)
  | some cs => [("components", cs)]
  | none => []

/-- The keyword arguments of `respond`, with their Python defaults.
`components` stands for the serialised component rows handed to
`_get_components_json`, `options` for the extra `**options` keyword
arguments. -/
structure RespondArgs where
  type : Int := InteractionType.ChannelMessageWithSource
  content : Option String := none
  embed : Option Embed := none
  embeds : Option (List Embed) := none
  allowed_mentions : Option AllowedMentions := none
  tts : Option Bool := some false
  ephemeral : Bool := true
  components : Option JVal := none
  options : ExtraOptions := { kvs := [], ok := rfl }

/-- One outbound HTTP request, as handed to `self.bot.http.request`. -/
structure HttpRequest where
  method : String
  path : String
  json : JVal

/-- What one call to `respond` did: the instance afterwards, the HTTP
requests issued, and the exception raised, if any. -/
structure RespondResult where
  self : Interaction
  requests : List HttpRequest
  error : Option PyError

/-- The local rebinding of `embeds`:
`if embed and embeds: embeds.append(embed)` / `elif embed: embeds = [embed]`.
An `Embed` object is always truthy; an empty list is falsy. -/
def combineEmbeds : Option Embed → Option (List Embed) → Option (List Embed)
  | some e, some [] => some [e]
  | some e, some (e0 :: es) => some ((e0 :: es) ++ [e])
  | some e, none => some [e]
  | none, es => es

/-- The dict after
`data = {**components_json, **options, "flags": Ephemeral if ephemeral else 0}`
and the conditional `data["content"] = content`. -/
def baseData (a : RespondArgs) : List (String × JVal) :=
  let data0 :=
    setKey (mergeDict (getComponentsJson a.components) a.options.kvs) "flags"
      (JVal.num (if a.ephemeral then FlagsType.Ephemeral else 0))
  match a.content with
  | some c => setKey data0 "content" (JVal.str c)
  | none => data0

/-- The tail of the dict construction: the `allowed_mentions` block
(merging with the connection state's allowed mentions when those are
set) followed by `if tts is not None: data["tts"] = tts`. -/
def applyMentionsTts (env : Env) (a : RespondArgs)
    (data : List (String × JVal)) : List (String × JVal) :=
  let data2 :=
    match a.allowed_mentions with
    | some am =>
        setKey data "allowed_mentions"
          (match env.state_allowed_mentions with
           | some sam => (env.merge sam am).to_dict
           | none => am.to_dict)
    | none => data
  match a.tts with
  | some t => setKey data2 "tts" (JVal.bool t)
  | none => data2

/-- The whole `data` dict built by `respond`, or the
`InvalidArgument("Embed limit exceeded. (Max: 10)")` it raises when the
(truthy) embeds list, after `to_dict` mapping, has more than 10
entries. -/
def buildData (env : Env) (a : RespondArgs) :
    Except PyError (List (String × JVal)) :=
  match combineEmbeds a.embed a.embeds with
  | some (e :: es) =>
      if (e :: es).length > 10 then
        Except.error (PyError.invalidArgument "Embed limit exceeded. (Max: 10)")
      else
        Except.ok (applyMentionsTts env a
          (setKey (baseData a) "embeds"
            (JVal.arr ((e :: es).map Embed.to_dict))))
  | _ => Except.ok (applyMentionsTts env a (baseData a))

/-- The route of the callback request:
`Route("POST", f"/interactions/{self.interaction_id}/{self.interaction_token}/callback")`. -/
def routeOf (self : Interaction) : String :=
  "/interactions/" ++ self.interaction_id.pyStr ++ "/"
    ++ self.interaction_token.pyStr ++ "/callback"

/-- `Interaction.respond`.  If `self.responded` the call returns at once;
otherwise the payload is built (possibly raising the embed-limit
error before any mutation), `self.responded` is set and the single
POST request is issued with json `{"type": type, "data": data}`. -/
def Interaction.respond (env : Env) (self : Interaction) (a : RespondArgs) :
    RespondResult :=
  if self.responded then
    { self := self, requests := [], error := none }
  else
    match buildData env a with
    | Except.error e => { self := self, requests := [], error := some e }
    | Except.ok data =>
        { self := { self with responded := true }
          requests :=
            [{ method := "POST"
               path := routeOf self
               json := JVal.obj [("type", JVal.num a.type), ("data", JVal.obj data)] }]
          error := none }

/-- The number of supplied embeds, transcribed from the claim's wording
("len(embeds) plus one when both embed and embeds are given, len(embeds)
when only embeds is given, and one when only embed is given"), to be
compared with the length of the source's combined list. -/
def claimedEmbedTotal : Option Embed → Option (List Embed) → Nat
  | some _, some es => es.length + 1
  | some _, none => 1
  | none, some es => es.length
  | none, none => 0

/-- The precondition of the constructor as the claim states it: `raw_data`
contains the key `"d"` mapping to a dict that contains the keys `"id"`
and `"token"`. -/
def initPre (raw : JVal) : Bool :=
  match raw with
  | JVal.obj kvs =>
      match JVal.lookup kvs "d" with
      | some (JVal.obj dkvs) =>
          (JVal.lookup dkvs "id").isSome && (JVal.lookup dkvs "token").isSome
      | _ => false
  | _ => false

/-- Whether the constructor's subscripting hits a non-dict value (the
shape on which Python raises `TypeError` rather than `KeyError`). -/
def tyErrShape (raw : JVal) : Bool :=
  match raw with
  | JVal.obj kvs =>
      match JVal.lookup kvs "d" with
      | some (JVal.obj _) => false
      | some _ => true
      | none => false
  | _ => true

/-- Whether an `__init__` run succeeded. -/
def isOkInit : Except PyError Interaction → Bool
  | Except.ok _ => true
  | Except.error _ => false

/-- The dict a successful `buildData` produced (empty on error; only ever
applied to successful runs). -/
def okData : Except PyError (List (String × JVal)) → List (String × JVal)
  | Except.ok d => d
  | Except.error _ => []

/-! ### Concrete sample values, used by witnesses and counterexamples -/

/-- Sample bot handle. -/
def botW : PyObj := { oid := 0 }

/-- Sample client handle. -/
def clientW : PyObj := { oid := 1 }

/-- Sample component handle. -/
def componentW : PyObj := { oid := 2 }

/-- Sample environment: no connection-state allowed mentions. -/
def envW : Env := { state_allowed_mentions := none, merge := fun x _ => x }

/-- Sample well-formed inbound payload. -/
def rawW : JVal :=
  JVal.obj [("d", JVal.obj [("id", JVal.str "123"), ("token", JVal.str "tok")])]

/-- Sample payload whose `"d"` value is not a dict. -/
def rawBadD : JVal := JVal.obj [("d", JVal.str "x")]

/-- Sample instance that has not yet responded. -/
def iFalse : Interaction :=
  { bot := botW
    client := clientW
    user := none
    author := none
    component := componentW
    raw_data := rawW
    is_ephemeral := false
    responded := false
    message := none
    channel := none
    guild := none
    interaction_id := JVal.str "123"
    interaction_token := JVal.str "tok" }

/-- Sample instance that has already responded. -/
def iTrue : Interaction := { iFalse with responded := true }

/-- The instance built by `Interaction.init` on the sample payload. -/
def okInteraction : Except PyError Interaction → Interaction
  | Except.ok i => i
  | Except.error _ => iFalse

/-- Sample constructed instance. -/
def iInit : Interaction :=
  okInteraction (Interaction.init botW clientW none componentW rawW none false)

/-- All-default `respond` arguments. -/
def argsW : RespondArgs := {}

/-- Arguments carrying eleven embeds. -/
def args11 : RespondArgs :=
  { embeds := some (List.replicate 11 { dict := JVal.null }) }

/-- Arguments carrying ten embeds. -/
def args10 : RespondArgs :=
  { embeds := some (List.replicate 10 { dict := JVal.null }) }

/-- Arguments supplying every optional payload parameter. -/
def argsFull : RespondArgs :=
  { content := some "hi"
    embed := some { dict := JVal.null }
    allowed_mentions := some { dict := JVal.obj [] }
    tts := some true
    ephemeral := false }

/-! ### Dictionary lemmas -/

theorem lookup_setKey_self (d : List (String × JVal)) (k : String) (v : JVal) :
    JVal.lookup (setKey d k v) k = some v := by
  induction d with
  | nil => simp [setKey, JVal.lookup]
  | cons kv rest ih =>
      obtain ⟨k0, v0⟩ := kv
      by_cases h : k0 = k
      · simp [setKey, h, JVal.lookup]
      · simp [setKey, h, JVal.lookup, ih]

theorem lookup_setKey_ne (d : List (String × JVal)) (k : String) (v : JVal)
    (k' : String) (h : k' ≠ k) :
    JVal.lookup (setKey d k v) k' = JVal.lookup d k' := by
  induction d with
  | nil => simp [setKey, JVal.lookup, Ne.symm h]
  | cons kv rest ih =>
      obtain ⟨k0, v0⟩ := kv
      by_cases h0 : k0 = k
      · subst h0
        simp [setKey, JVal.lookup, Ne.symm h]
      · simp [setKey, h0, JVal.lookup, ih]

theorem hasKey_setKey (d : List (String × JVal)) (k : String) (v : JVal)
    (k' : String) :
    hasKey (setKey d k v) k' = if k' = k then true else hasKey d k' := by
  by_cases h : k' = k
  · subst h
    simp [hasKey, lookup_setKey_self]
  · simp [hasKey, lookup_setKey_ne d k v k' h, h]

theorem hasKey_mergeDict (b a : List (String × JVal)) (k : String) :
    hasKey (mergeDict a b) k = (hasKey a k || hasKey b k) := by
  induction b generalizing a with
  | nil => simp [mergeDict, hasKey, JVal.lookup]
  | cons kv bs ih =>
      obtain ⟨k0, v0⟩ := kv
      have hstep : mergeDict a ((k0, v0) :: bs) = mergeDict (setKey a k0 v0) bs := by
        simp [mergeDict]
      rw [hstep, ih, hasKey_setKey]
      by_cases h : k = k0
      · subst h
        simp [hasKey, JVal.lookup]
      · simp [hasKey, JVal.lookup, h, Ne.symm h]

theorem lookup_applyMentionsTts_other (env : Env) (a : RespondArgs)
    (d : List (String × JVal)) (k : String)
    (h1 : k ≠ "allowed_mentions") (h2 : k ≠ "tts") :
    JVal.lookup (applyMentionsTts env a d) k = JVal.lookup d k := by
  unfold applyMentionsTts
  cases ham : a.allowed_mentions <;> cases htts : a.tts <;>
    simp [lookup_setKey_ne, h1, h2]

theorem hasKey_applyMentionsTts_other (env : Env) (a : RespondArgs)
    (d : List (String × JVal)) (k : String)
    (h1 : k ≠ "allowed_mentions") (h2 : k ≠ "tts") :
    hasKey (applyMentionsTts env a d) k = hasKey d k := by
  simp [hasKey, lookup_applyMentionsTts_other env a d k h1 h2]

theorem hasKey_applyMentionsTts_am (env : Env) (a : RespondArgs)
    (d : List (String × JVal)) :
    hasKey (applyMentionsTts env a d) "allowed_mentions" =
      (a.allowed_mentions.isSome || hasKey d "allowed_mentions") := by
  unfold applyMentionsTts
  cases ham : a.allowed_mentions <;> cases htts : a.tts <;>
    simp [hasKey_setKey, hasKey, lookup_setKey_self, lookup_setKey_ne]

theorem hasKey_applyMentionsTts_tts (env : Env) (a : RespondArgs)
    (d : List (String × JVal)) :
    hasKey (applyMentionsTts env a d) "tts" =
      (a.tts.isSome || hasKey d "tts") := by
  unfold applyMentionsTts
  cases ham : a.allowed_mentions <;> cases htts : a.tts <;>
    simp [hasKey_setKey, hasKey, lookup_setKey_self, lookup_setKey_ne]

theorem lookup_applyMentionsTts_tts_some (env : Env) (a : RespondArgs)
    (d : List (String × JVal)) (t : Bool) (h : a.tts = some t) :
    JVal.lookup (applyMentionsTts env a d) "tts" = some (JVal.bool t) := by
  unfold applyMentionsTts
  cases ham : a.allowed_mentions <;> simp [h, lookup_setKey_self]

/-! ### Structure of the built payload -/

theorem combineEmbeds_length (e : Option Embed) (es : Option (List Embed)) :
    ((combineEmbeds e es).getD []).length = claimedEmbedTotal e es := by
  cases e with
  | none => cases es <;> simp [combineEmbeds, claimedEmbedTotal]
  | some e0 =>
      cases es with
      | none => simp [combineEmbeds, claimedEmbedTotal]
      | some l => cases l <;> simp [combineEmbeds, claimedEmbedTotal]

theorem lookup_baseData_flags (a : RespondArgs) :
    JVal.lookup (baseData a) "flags" =
      some (JVal.num (if a.ephemeral then FlagsType.Ephemeral else 0)) := by
  unfold baseData
  cases hc : a.content <;> simp [lookup_setKey_self, lookup_setKey_ne]

theorem hasKey_false_of_all (l : List (String × JVal)) (k : String)
    (hk : respondParamNames.contains k = true)
    (hall : l.all (fun kv => !respondParamNames.contains kv.1) = true) :
    hasKey l k = false := by
  induction l with
  | nil => rfl
  | cons kv rest ih =>
      simp only [List.all_cons, Bool.and_eq_true] at hall
      obtain ⟨h1, h2⟩ := hall
      obtain ⟨k1, v1⟩ := kv
      by_cases he : k1 = k
      · subst he
        rw [hk] at h1
        cases h1
      · simp only [hasKey, JVal.lookup, if_neg he]
        exact ih h2

theorem hasKey_getComponentsJson (c : Option JVal) (k : String)
    (h : k ≠ "components") : hasKey (getComponentsJson c) k = false := by
  cases c <;> simp [getComponentsJson, hasKey, JVal.lookup, Ne.symm h]

theorem hasKey_mergedInputs_false (a : RespondArgs) (k : String)
    (h1 : k ≠ "components") (hk : respondParamNames.contains k = true) :
    hasKey (mergeDict (getComponentsJson a.components) a.options.kvs) k =
      false := by
  rw [hasKey_mergeDict, hasKey_getComponentsJson _ _ h1,
      hasKey_false_of_all _ _ hk a.options.ok]
  rfl

theorem hasKey_baseData_content (a : RespondArgs) :
    hasKey (baseData a) "content" = a.content.isSome := by
  unfold baseData
  cases h : a.content <;>
    simp [hasKey_setKey,
      hasKey_mergedInputs_false a "content" (by decide) (by decide)]

theorem hasKey_baseData_param_false (a : RespondArgs) (k : String)
    (h1 : k ≠ "flags") (h2 : k ≠ "content") (h3 : k ≠ "components")
    (hk : respondParamNames.contains k = true) :
    hasKey (baseData a) k = false := by
  unfold baseData
  cases h : a.content <;>
    simp [hasKey_setKey, h1, h2, hasKey_mergedInputs_false a k h3 hk]

theorem buildData_cases (env : Env) (a : RespondArgs) :
    (claimedEmbedTotal a.embed a.embeds > 10 ∧
      buildData env a =
        Except.error (PyError.invalidArgument "Embed limit exceeded. (Max: 10)")) ∨
    (claimedEmbedTotal a.embed a.embeds ≤ 10 ∧
      ∃ d, buildData env a = Except.ok d) := by
  have hlen := combineEmbeds_length a.embed a.embeds
  cases hc : combineEmbeds a.embed a.embeds with
  | none =>
      right
      rw [hc] at hlen
      simp at hlen
      exact ⟨by omega, ⟨applyMentionsTts env a (baseData a), by simp [buildData, hc]⟩⟩
  | some l =>
      cases l with
      | nil =>
          right
          rw [hc] at hlen
          simp at hlen
          exact ⟨by omega, ⟨applyMentionsTts env a (baseData a), by simp [buildData, hc]⟩⟩
      | cons e es =>
          rw [hc] at hlen
          simp at hlen
          by_cases hlarge : es.length + 1 > 10
          · left
            refine ⟨by omega, ?_⟩
            simp [buildData, hc, hlarge]
          · right
            refine ⟨by omega,
              ⟨applyMentionsTts env a (setKey (baseData a) "embeds"
                (JVal.arr ((e :: es).map Embed.to_dict))), ?_⟩⟩
            have hsmall : ¬ (10 : Nat) < es.length + 1 := by omega
            simp [buildData, hc, hsmall]

theorem buildData_ok_shape (env : Env) (a : RespondArgs)
    (d : List (String × JVal)) (h : buildData env a = Except.ok d) :
    (claimedEmbedTotal a.embed a.embeds = 0 ∧
      d = applyMentionsTts env a (baseData a)) ∨
    (0 < claimedEmbedTotal a.embed a.embeds ∧
      claimedEmbedTotal a.embed a.embeds ≤ 10 ∧
      d = applyMentionsTts env a
        (setKey (baseData a) "embeds"
          (JVal.arr (((combineEmbeds a.embed a.embeds).getD []).map Embed.to_dict)))) := by
  have hlen := combineEmbeds_length a.embed a.embeds
  cases hc : combineEmbeds a.embed a.embeds with
  | none =>
      left
      rw [hc] at hlen
      simp at hlen
      rw [buildData, hc] at h
      simp at h
      exact ⟨by omega, h.symm⟩
  | some l =>
      cases l with
      | nil =>
          left
          rw [hc] at hlen
          simp at hlen
          rw [buildData, hc] at h
          simp at h
          exact ⟨by omega, h.symm⟩
      | cons e es =>
          right
          rw [hc] at hlen
          simp at hlen
          rw [buildData, hc] at h
          by_cases hlarge : es.length + 1 > 10
          · simp [hlarge] at h
          · have hsmall : ¬ (10 : Nat) < es.length + 1 := by omega
            simp [hsmall] at h
            refine ⟨by omega, by omega, ?_⟩
            simp
            exact h.symm

theorem respond_of_error (env : Env) (self : Interaction) (a : RespondArgs)
    (e : PyError) (h : self.responded = false)
    (he : buildData env a = Except.error e) :
    Interaction.respond env self a =
      { self := self, requests := [], error := some e } := by
  simp [Interaction.respond, h, he]

theorem respond_of_ok (env : Env) (self : Interaction) (a : RespondArgs)
    (d : List (String × JVal)) (h : self.responded = false)
    (hd : buildData env a = Except.ok d) :
    Interaction.respond env self a =
      { self := { self with responded := true }
        requests :=
          [{ method := "POST"
             path := routeOf self
             json := JVal.obj [("type", JVal.num a.type), ("data", JVal.obj d)] }]
        error := none } := by
  simp [Interaction.respond, h, hd]

theorem init_ok_eq (bot client : PyObj) (user : Option PyObj)
    (component : PyObj) (raw : JVal) (message : Option ComponentMessage)
    (eph : Bool) (i : Interaction)
    (h : Interaction.init bot client user component raw message eph = Except.ok i) :
    ∃ iid tok,
      dig raw "d" "id" = Except.ok iid ∧
      dig raw "d" "token" = Except.ok tok ∧
      i = { bot := bot, client := client, user := user, author := user,
            component := component, raw_data := raw, is_ephemeral := eph,
            responded := false, message := message,
            channel := channelOf message, guild := guildOf message,
            interaction_id := iid, interaction_token := tok } := by
  cases hid : dig raw "d" "id" with
  | error e => simp [Interaction.init, hid, Bind.bind, Except.bind] at h
  | ok iid =>
      cases htok : dig raw "d" "token" with
      | error e => simp [Interaction.init, hid, htok, Bind.bind, Except.bind] at h
      | ok tok =>
          refine ⟨iid, tok, rfl, rfl, ?_⟩
          simp [Interaction.init, hid, htok, Bind.bind, Except.bind] at h
          exact h.symm

/-! ### The claims -/

/-- C1: once a completed `respond` call has set `responded` to `True`,
every subsequent `respond` call on the same instance returns `None`
immediately: it issues no HTTP request, raises nothing and modifies no
field. -/
theorem C1_respond_effectively_once (env : Env) (self : Interaction)
    (a : RespondArgs) (h : self.responded = true) :
    Interaction.respond env self a =
      { self := self, requests := [], error := none } := by
  simp [Interaction.respond, h]

/-- Witness for C1 at concrete inputs. -/
theorem C1_witness :
    iTrue.responded = true ∧
      Interaction.respond envW iTrue argsW =
        { self := iTrue, requests := [], error := none } :=
  ⟨rfl, C1_respond_effectively_once envW iTrue argsW rfl⟩

/-- C2: with `responded = False`, `respond` raises
`InvalidArgument("Embed limit exceeded. (Max: 10)")` iff the total
number of supplied embeds — counted as the claim counts them — exceeds
10; it raises no other validation error, and when it raises, no HTTP
request is issued. -/
theorem C2_embed_limit_validation (env : Env) (self : Interaction)
    (a : RespondArgs) (h : self.responded = false) :
    ((Interaction.respond env self a).error.isSome = true ↔
      claimedEmbedTotal a.embed a.embeds > 10) ∧
    (∀ e, (Interaction.respond env self a).error = some e →
      e = PyError.invalidArgument "Embed limit exceeded. (Max: 10)" ∧
      (Interaction.respond env self a).requests = []) := by
  rcases buildData_cases env a with ⟨hgt, herr⟩ | ⟨hle, d, hok⟩
  · rw [respond_of_error env self a _ h herr]
    refine ⟨by simpa using hgt, ?_⟩
    intro e he
    simp at he
    exact ⟨he.symm, rfl⟩
  · rw [respond_of_ok env self a d h hok]
    constructor
    · simp
      omega
    · intro e he
      simp at he

/-- Witness for C2 at concrete inputs: eleven embeds trip the limit. -/
theorem C2_witness :
    iFalse.responded = false ∧
      ((Interaction.respond envW iFalse args11).error.isSome = true ↔
        claimedEmbedTotal args11.embed args11.embeds > 10) :=
  ⟨rfl, (C2_embed_limit_validation envW iFalse args11 rfl).1⟩

/-- C3 counterexample: a `respond` call on an instance whose `responded`
flag is already `True` performs zero outbound HTTP requests, refuting
"every call to respond performs one outbound HTTP request". -/
theorem C3_counterexample :
    iTrue.responded = true ∧
      (Interaction.respond envW iTrue argsW).requests = [] := ⟨rfl, rfl⟩

/-- C3 (amended): every `respond` call performs at most one outbound HTTP
request; when `responded` is `False` and no validation error is raised
it performs exactly one POST to
`/interactions/{interaction_id}/{interaction_token}/callback` and no
other network call, and otherwise (already responded, or the
embed-limit error) it performs none. -/
theorem C3_amended_single_callback_post (env : Env) (self : Interaction)
    (a : RespondArgs) :
    (self.responded = false → (Interaction.respond env self a).error = none →
      (Interaction.respond env self a).requests =
        [{ method := "POST", path := routeOf self,
           json := JVal.obj [("type", JVal.num a.type),
                             ("data", JVal.obj (okData (buildData env a)))] }]) ∧
    (self.responded = true ∨ (Interaction.respond env self a).error ≠ none →
      (Interaction.respond env self a).requests = []) := by
  by_cases h : self.responded = true
  · constructor
    · intro hf
      rw [hf] at h
      simp at h
    · intro _
      simp [Interaction.respond, h]
  · have h' : self.responded = false := by simpa using h
    cases hbd : buildData env a with
    | error e =>
        rw [respond_of_error env self a e h' hbd]
        refine ⟨?_, fun _ => rfl⟩
        intro _ hn
        simp at hn
    | ok d =>
        rw [respond_of_ok env self a d h' hbd]
        constructor
        · intro _ _
          simp [hbd, okData]
        · intro hor
          rcases hor with h1 | h2
          · rw [h1] at h'
            simp at h'
          · simp at h2

/-- Witness for C3's amended theorem at concrete inputs. -/
theorem C3_witness :
    (Interaction.respond envW iFalse argsW).requests =
      [{ method := "POST", path := routeOf iFalse,
         json := JVal.obj [("type", JVal.num argsW.type),
                           ("data", JVal.obj (okData (buildData envW argsW)))] }] :=
  (C3_amended_single_callback_post envW iFalse argsW).1 rfl rfl

/-- C4: construction copies the inbound payload's fields verbatim:
`interaction_id` and `interaction_token` are the values of
`raw_data["d"]["id"]` and `raw_data["d"]["token"]`, the `user`,
`component`, `raw_data`, `message` and `is_ephemeral` parameters are
stored unchanged, `author` equals `user`, and `responded` starts
`False`. -/
theorem C4_init_copies_verbatim (bot client : PyObj) (user : Option PyObj)
    (component : PyObj) (raw : JVal) (message : Option ComponentMessage)
    (eph : Bool) (i : Interaction)
    (h : Interaction.init bot client user component raw message eph = Except.ok i) :
    i.bot = bot ∧ i.client = client ∧ i.user = user ∧ i.author = user ∧
    i.component = component ∧ i.raw_data = raw ∧ i.message = message ∧
    i.is_ephemeral = eph ∧ i.responded = false ∧
    dig raw "d" "id" = Except.ok i.interaction_id ∧
    dig raw "d" "token" = Except.ok i.interaction_token := by
  obtain ⟨iid, tok, hid, htok, hi⟩ :=
    init_ok_eq bot client user component raw message eph i h
  subst hi
  simp [hid, htok]

/-- Witness for C4 at concrete inputs. -/
theorem C4_witness :
    Interaction.init botW clientW none componentW rawW none false =
      Except.ok iInit ∧
    (iInit.bot = botW ∧ iInit.client = clientW ∧ iInit.user = none ∧
     iInit.author = none ∧ iInit.component = componentW ∧
     iInit.raw_data = rawW ∧ iInit.message = none ∧
     iInit.is_ephemeral = false ∧ iInit.responded = false ∧
     dig rawW "d" "id" = Except.ok iInit.interaction_id ∧
     dig rawW "d" "token" = Except.ok iInit.interaction_token) :=
  ⟨rfl, C4_init_copies_verbatim botW clientW none componentW rawW none false
    iInit rfl⟩

/-- C5: the outbound JSON payload built by `respond` from its optional
parameters is exactly `{"type": type, "data": data}`, where `data`
has `"flags"` equal to 64 (Ephemeral) when `ephemeral` is true and 0
otherwise, contains `"content"` iff `content` is not `None`, contains
`"embeds"` (the dict forms of all supplied embeds) iff at least one
embed was supplied, contains `"allowed_mentions"` iff
`allowed_mentions` is truthy, and contains `"tts"` iff `tts` is not
`None`. -/
theorem C5_payload_exact (env : Env) (self : Interaction)
    (a : RespondArgs) (d : List (String × JVal))
    (hresp : self.responded = false)
    (hok : buildData env a = Except.ok d) :
    (Interaction.respond env self a).requests =
      [{ method := "POST", path := routeOf self,
         json := JVal.obj [("type", JVal.num a.type), ("data", JVal.obj d)] }] ∧
    JVal.lookup d "flags" =
      some (JVal.num (if a.ephemeral then FlagsType.Ephemeral else 0)) ∧
    hasKey d "content" = a.content.isSome ∧
    (hasKey d "embeds" = true ↔ 0 < claimedEmbedTotal a.embed a.embeds) ∧
    (hasKey d "embeds" = true →
      JVal.lookup d "embeds" =
        some (JVal.arr
          (((combineEmbeds a.embed a.embeds).getD []).map Embed.to_dict))) ∧
    hasKey d "allowed_mentions" = a.allowed_mentions.isSome ∧
    hasKey d "tts" = a.tts.isSome := by
  refine ⟨by rw [respond_of_ok env self a d hresp hok], ?_⟩
  rcases buildData_ok_shape env a d hok with ⟨h0, hd⟩ | ⟨hpos, hle, hd⟩
  · subst hd
    refine ⟨?_, ?_, ?_, ?_, ?_, ?_⟩
    · rw [lookup_applyMentionsTts_other env a _ "flags" (by decide) (by decide),
          lookup_baseData_flags]
    · rw [hasKey_applyMentionsTts_other env a _ "content" (by decide) (by decide),
          hasKey_baseData_content]
    · rw [hasKey_applyMentionsTts_other env a _ "embeds" (by decide) (by decide),
          hasKey_baseData_param_false a "embeds" (by decide) (by decide)
            (by decide) (by decide)]
      simp
      omega
    · intro hk
      rw [hasKey_applyMentionsTts_other env a _ "embeds" (by decide) (by decide),
          hasKey_baseData_param_false a "embeds" (by decide) (by decide)
            (by decide) (by decide)] at hk
      cases hk
    · rw [hasKey_applyMentionsTts_am,
          hasKey_baseData_param_false a "allowed_mentions" (by decide)
            (by decide) (by decide) (by decide)]
      simp
    · rw [hasKey_applyMentionsTts_tts,
          hasKey_baseData_param_false a "tts" (by decide) (by decide)
            (by decide) (by decide)]
      simp
  · subst hd
    refine ⟨?_, ?_, ?_, ?_, ?_, ?_⟩
    · rw [lookup_applyMentionsTts_other env a _ "flags" (by decide) (by decide),
          lookup_setKey_ne _ _ _ _ (by decide), lookup_baseData_flags]
    · rw [hasKey_applyMentionsTts_other env a _ "content" (by decide) (by decide),
          hasKey_setKey, if_neg (by decide : ¬ ("content" : String) = "embeds"),
          hasKey_baseData_content]
    · rw [hasKey_applyMentionsTts_other env a _ "embeds" (by decide) (by decide),
          hasKey_setKey, if_pos rfl]
      simp
      omega
    · intro _
      rw [lookup_applyMentionsTts_other env a _ "embeds" (by decide) (by decide),
          lookup_setKey_self]
    · rw [hasKey_applyMentionsTts_am, hasKey_setKey,
          if_neg (by decide : ¬ ("allowed_mentions" : String) = "embeds"),
          hasKey_baseData_param_false a "allowed_mentions" (by decide)
            (by decide) (by decide) (by decide)]
      simp
    · rw [hasKey_applyMentionsTts_tts, hasKey_setKey,
          if_neg (by decide : ¬ ("tts" : String) = "embeds"),
          hasKey_baseData_param_false a "tts" (by decide) (by decide)
            (by decide) (by decide)]
      simp

/-- Witness for C5 at concrete inputs supplying every payload
parameter. -/
theorem C5_witness :
    (Interaction.respond envW iFalse argsFull).requests =
      [{ method := "POST", path := routeOf iFalse,
         json := JVal.obj [("type", JVal.num argsFull.type),
           ("data", JVal.obj (okData (buildData envW argsFull)))] }] ∧
    JVal.lookup (okData (buildData envW argsFull)) "flags" =
      some (JVal.num (if argsFull.ephemeral then FlagsType.Ephemeral else 0)) ∧
    hasKey (okData (buildData envW argsFull)) "content" =
      argsFull.content.isSome ∧
    (hasKey (okData (buildData envW argsFull)) "embeds" = true ↔
      0 < claimedEmbedTotal argsFull.embed argsFull.embeds) ∧
    (hasKey (okData (buildData envW argsFull)) "embeds" = true →
      JVal.lookup (okData (buildData envW argsFull)) "embeds" =
        some (JVal.arr
          (((combineEmbeds argsFull.embed argsFull.embeds).getD []).map
            Embed.to_dict))) ∧
    hasKey (okData (buildData envW argsFull)) "allowed_mentions" =
      argsFull.allowed_mentions.isSome ∧
    hasKey (okData (buildData envW argsFull)) "tts" = argsFull.tts.isSome :=
  C5_payload_exact envW iFalse argsFull (okData (buildData envW argsFull))
    rfl rfl

/-- C6: `responded` is a one-shot boolean guard: it is `False` at
construction, the only transition any operation performs on it is
`False → True`, and no operation resets it to `False`. -/
theorem C6_responded_one_shot_guard :
    (∀ bot client user component raw message eph i,
      Interaction.init bot client user component raw message eph = Except.ok i →
        i.responded = false) ∧
    (∀ env self a,
      ((Interaction.respond env self a).self.responded = self.responded ∨
        (self.responded = false ∧
          (Interaction.respond env self a).self.responded = true)) ∧
      ((Interaction.respond env self a).self.responded = false →
        self.responded = false)) := by
  constructor
  · intro bot client user component raw message eph i h
    obtain ⟨iid, tok, _, _, hi⟩ :=
      init_ok_eq bot client user component raw message eph i h
    subst hi
    rfl
  · intro env self a
    by_cases h : self.responded = true
    · constructor
      · left
        simp [Interaction.respond, h]
      · intro hf
        simp [Interaction.respond, h] at hf
    · have h' : self.responded = false := by simpa using h
      cases hbd : buildData env a with
      | error e =>
          rw [respond_of_error env self a e h' hbd]
          exact ⟨Or.inl rfl, fun _ => h'⟩
      | ok d =>
          rw [respond_of_ok env self a d h' hbd]
          exact ⟨Or.inr ⟨h', rfl⟩, fun _ => h'⟩

/-- Witness for C6 at concrete inputs. -/
theorem C6_witness : iInit.responded = false :=
  C6_responded_one_shot_guard.1 botW clientW none componentW rawW none false
    iInit rfl

/-- C7: `respond` mutates no per-instance field other than `responded`:
all twelve other fields are unchanged by every call. -/
theorem C7_respond_frame (env : Env) (self : Interaction) (a : RespondArgs) :
    (Interaction.respond env self a).self.bot = self.bot ∧
    (Interaction.respond env self a).self.client = self.client ∧
    (Interaction.respond env self a).self.user = self.user ∧
    (Interaction.respond env self a).self.author = self.author ∧
    (Interaction.respond env self a).self.component = self.component ∧
    (Interaction.respond env self a).self.raw_data = self.raw_data ∧
    (Interaction.respond env self a).self.message = self.message ∧
    (Interaction.respond env self a).self.channel = self.channel ∧
    (Interaction.respond env self a).self.guild = self.guild ∧
    (Interaction.respond env self a).self.interaction_id =
      self.interaction_id ∧
    (Interaction.respond env self a).self.interaction_token =
      self.interaction_token ∧
    (Interaction.respond env self a).self.is_ephemeral = self.is_ephemeral := by
  by_cases h : self.responded = true
  · simp [Interaction.respond, h]
  · have h' : self.responded = false := by simpa using h
    cases hbd : buildData env a with
    | error e =>
        rw [respond_of_error env self a e h' hbd]
        exact ⟨rfl, rfl, rfl, rfl, rfl, rfl, rfl, rfl, rfl, rfl, rfl, rfl⟩
    | ok d =>
        rw [respond_of_ok env self a d h' hbd]
        exact ⟨rfl, rfl, rfl, rfl, rfl, rfl, rfl, rfl, rfl, rfl, rfl, rfl⟩

/-- C8: when `respond` raises the embed-limit `InvalidArgument`, the call
leaves the instance unchanged — in particular `responded` was `False`
and stays so — and issues no HTTP request, so a subsequent `respond`
on the same instance can still perform the callback. -/
theorem C8_error_leaves_state (env : Env) (self : Interaction)
    (a : RespondArgs)
    (h : (Interaction.respond env self a).error.isSome = true) :
    (Interaction.respond env self a).self = self ∧
    (Interaction.respond env self a).requests = [] ∧
    self.responded = false := by
  by_cases hr : self.responded = true
  · simp [Interaction.respond, hr] at h
  · have h' : self.responded = false := by simpa using hr
    cases hbd : buildData env a with
    | error e =>
        rw [respond_of_error env self a e h' hbd]
        exact ⟨rfl, rfl, h'⟩
    | ok d =>
        rw [respond_of_ok env self a d h' hbd] at h
        simp at h

/-- Witness for C8 at concrete inputs: eleven embeds raise the error. -/
theorem C8_witness :
    (Interaction.respond envW iFalse args11).error.isSome = true ∧
      ((Interaction.respond envW iFalse args11).self = iFalse ∧
       (Interaction.respond envW iFalse args11).requests = [] ∧
       iFalse.responded = false) :=
  ⟨rfl, C8_error_leaves_state envW iFalse args11 rfl⟩

theorem buildData_ok_applyMT (env : Env) (a : RespondArgs)
    (d : List (String × JVal)) (h : buildData env a = Except.ok d) :
    ∃ d0, d = applyMentionsTts env a d0 := by
  rcases buildData_ok_shape env a d h with ⟨_, hd⟩ | ⟨_, _, hd⟩
  · exact ⟨_, hd⟩
  · exact ⟨_, hd⟩

/-- C9: since the inclusion guard is `tts is not None` and `tts` defaults
to `False`, every `respond` call leaving `tts` at its default sends
`"tts": false` in the outbound data; the `"tts"` key is omitted only
when the caller explicitly passes `tts=None`. -/
theorem C9_tts_default_sent (env : Env) (a : RespondArgs)
    (d : List (String × JVal)) (h : buildData env a = Except.ok d) :
    (({} : RespondArgs).tts = some false) ∧
    (∀ t, a.tts = some t → JVal.lookup d "tts" = some (JVal.bool t)) ∧
    (hasKey d "tts" = false → a.tts = none) := by
  obtain ⟨d0, hd⟩ := buildData_ok_applyMT env a d h
  subst hd
  refine ⟨rfl, ?_, ?_⟩
  · intro t ht
    exact lookup_applyMentionsTts_tts_some env a d0 t ht
  · intro hk
    rw [hasKey_applyMentionsTts_tts] at hk
    cases htts : a.tts with
    | none => rfl
    | some t =>
        rw [htts] at hk
        simp at hk

/-- Witness for C9 at all-default arguments: the sent data carries
`"tts": false`. -/
theorem C9_witness :
    buildData envW argsW = Except.ok (okData (buildData envW argsW)) ∧
      JVal.lookup (okData (buildData envW argsW)) "tts" =
        some (JVal.bool false) :=
  ⟨rfl,
    (C9_tts_default_sent envW argsW (okData (buildData envW argsW)) rfl).2.1
      false rfl⟩

/-- C10 counterexample: a payload whose `"d"` value is a string violates
the claimed precondition, yet `__init__` raises `TypeError`, not the
`KeyError` the claim promises for every violating payload. -/
theorem C10_counterexample :
    initPre rawBadD = false ∧
      Interaction.init botW clientW none componentW rawBadD none false =
        Except.error PyError.typeError := ⟨rfl, rfl⟩

/-- C10 (amended): under the precondition construction succeeds; for a
violating `raw_data`, `__init__` raises `KeyError` when the values
being subscripted are dicts merely missing the key, and `TypeError`
when `raw_data` itself or `raw_data["d"]` is not a dict. -/
theorem C10_keyerror_amended (bot client : PyObj) (user : Option PyObj)
    (component : PyObj) (raw : JVal) (message : Option ComponentMessage)
    (eph : Bool) :
    (initPre raw = true →
      isOkInit (Interaction.init bot client user component raw message eph) =
        true) ∧
    (initPre raw = false → tyErrShape raw = false →
      ∃ k, Interaction.init bot client user component raw message eph =
        Except.error (PyError.keyError k)) ∧
    (initPre raw = false → tyErrShape raw = true →
      Interaction.init bot client user component raw message eph =
        Except.error PyError.typeError) := by
  cases raw with
  | null =>
      refine ⟨?_, ?_, ?_⟩ <;>
        simp [initPre, tyErrShape, Interaction.init, dig, subscript,
          Bind.bind, Except.bind, isOkInit]
  | bool b =>
      refine ⟨?_, ?_, ?_⟩ <;>
        simp [initPre, tyErrShape, Interaction.init, dig, subscript,
          Bind.bind, Except.bind, isOkInit]
  | num n =>
      refine ⟨?_, ?_, ?_⟩ <;>
        simp [initPre, tyErrShape, Interaction.init, dig, subscript,
          Bind.bind, Except.bind, isOkInit]
  | str s =>
      refine ⟨?_, ?_, ?_⟩ <;>
        simp [initPre, tyErrShape, Interaction.init, dig, subscript,
          Bind.bind, Except.bind, isOkInit]
  | arr xs =>
      refine ⟨?_, ?_, ?_⟩ <;>
        simp [initPre, tyErrShape, Interaction.init, dig, subscript,
          Bind.bind, Except.bind, isOkInit]
  | obj kvs =>
      cases hd : JVal.lookup kvs "d" with
      | none =>
          refine ⟨?_, ?_, ?_⟩ <;>
            simp [initPre, tyErrShape, hd, Interaction.init, dig, subscript,
              Bind.bind, Except.bind, isOkInit]
      | some dv =>
          cases dv with
          | obj dkvs =>
              cases hid : JVal.lookup dkvs "id" with
              | none =>
                  refine ⟨?_, ?_, ?_⟩ <;>
                    simp [initPre, tyErrShape, hd, hid, Interaction.init, dig,
                      subscript, Bind.bind, Except.bind, isOkInit]
              | some iv =>
                  cases htok : JVal.lookup dkvs "token" with
                  | none =>
                      refine ⟨?_, ?_, ?_⟩ <;>
                        simp [initPre, tyErrShape, hd, hid, htok,
                          Interaction.init, dig, subscript, Bind.bind,
                          Except.bind, isOkInit]
                  | some tv =>
                      refine ⟨?_, ?_, ?_⟩ <;>
                        simp [initPre, tyErrShape, hd, hid, htok,
                          Interaction.init, dig, subscript, Bind.bind,
                          Except.bind, isOkInit]
          | null =>
              refine ⟨?_, ?_, ?_⟩ <;>
                simp [initPre, tyErrShape, hd, Interaction.init, dig,
                  subscript, Bind.bind, Except.bind, isOkInit]
          | bool b =>
              refine ⟨?_, ?_, ?_⟩ <;>
                simp [initPre, tyErrShape, hd, Interaction.init, dig,
                  subscript, Bind.bind, Except.bind, isOkInit]
          | num n =>
              refine ⟨?_, ?_, ?_⟩ <;>
                simp [initPre, tyErrShape, hd, Interaction.init, dig,
                  subscript, Bind.bind, Except.bind, isOkInit]
          | str s =>
              refine ⟨?_, ?_, ?_⟩ <;>
                simp [initPre, tyErrShape, hd, Interaction.init, dig,
                  subscript, Bind.bind, Except.bind, isOkInit]
          | arr xs =>
              refine ⟨?_, ?_, ?_⟩ <;>
                simp [initPre, tyErrShape, hd, Interaction.init, dig,
                  subscript, Bind.bind, Except.bind, isOkInit]

/-- Witness for C10's amended theorem: the well-formed sample payload
satisfies the precondition and construction succeeds. -/
theorem C10_witness :
    initPre rawW = true ∧
      isOkInit (Interaction.init botW clientW none componentW rawW none false) =
        true :=
  ⟨rfl,
    (C10_keyerror_amended botW clientW none componentW rawW none false).1 rfl⟩
